import Mathlib

/-!
Verification of the client-side session / two-step admin authentication
logic of the campus-marketplace frontend.

The definitions below are shallow embeddings of:
  - frontend/src/types/index.ts        (UserRole, TokenUserInfo)
  - the auth store module (setAuth, clearAuth, initAuth)
  - frontend/src/lib/api.ts            (apiRequest header construction and
                                        error handling, adminLoginStep2, logout)
  - the ProtectedRoute module (checkAuthorization, ProtectedRoute)
  - the Login page (handleStep1, handleStep2 response processing)

Browser localStorage is modelled as a total function from keys to optional
stored values.  A stored value is either a plain string or the JSON
serialization of a user summary; JSON.parse of a plain (non-JSON) string is
modelled as a parse failure, and JSON.parse of a serialized user summary
recovers it exactly.
-/

namespace Marketplace

/-- Role enumeration, from frontend/src/types/index.ts (UserRole). -/
inductive UserRole
  | user
  | admin
deriving DecidableEq, Repr

/-- Decoded user summary carried in tokens, from frontend/src/types/index.ts
(TokenUserInfo). -/
structure TokenUserInfo where
  user_id : Nat
  username : String
  email : String
  full_name : String
  role : UserRole
  is_verified : Bool
deriving DecidableEq, Repr

/-- A value held in browser localStorage: either a plain string, or the JSON
serialization of a TokenUserInfo (what JSON.stringify(user) produces). -/
inductive StorageVal
  | str (s : String)
  | userJson (u : TokenUserInfo)
deriving DecidableEq, Repr

/-- localStorage: a map from string keys to optionally present values. -/
def Storage := String → Option StorageVal

/-- localStorage.setItem. -/
def Storage.set (σ : Storage) (k : String) (v : StorageVal) : Storage :=
  fun k2 => if k2 = k then some v else σ k2

/-- localStorage.removeItem. -/
def Storage.remove (σ : Storage) (k : String) : Storage :=
  fun k2 => if k2 = k then none else σ k2

/-- An empty localStorage (fresh browser profile, or cleared storage). -/
def Storage.empty : Storage := fun _ => none

/-- JavaScript truthiness of a value read with localStorage.getItem: null and
the empty string are falsy; any other string is truthy. -/
def valTruthy : Option StorageVal → Bool
  | none => false
  | some (.str s) => !(s == "")
  | some (.userJson _) => true

/-- The string content of a stored value (getItem returns a string; the
rendering of a serialized user object is opaque and never inspected by the
code under verification). -/
def valString : StorageVal → String
  | .str s => s
  | .userJson _ => "serialized-user-object"

/-- JSON.parse applied to a stored value, shape-checked as a user summary:
parsing the JSON serialization of a user recovers it; a plain string models
text that is not valid JSON, so parsing it throws (returns none). -/
def parseUser : StorageVal → Option TokenUserInfo
  | .userJson u => some u
  | .str _ => none

/-- JSON.parse lifted to an optional stored value. -/
def parseUserOpt : Option StorageVal → Option TokenUserInfo
  | some v => parseUser v
  | none => none

/-- In-memory fields of the auth store module (user, token, isAuthenticated). -/
structure AuthStore where
  user : Option TokenUserInfo
  token : Option String
  isAuthenticated : Bool
deriving DecidableEq, Repr

/-- The in-memory auth state of a freshly started process: all fields at
their module-level initial values (null, null, false). -/
def AuthStore.fresh : AuthStore := ⟨none, none, false⟩

/-- Full client state: the in-memory auth store plus persistent localStorage. -/
structure ClientState where
  auth : AuthStore
  storage : Storage

/-- authStore.setAuth(token, user): records token and user in memory, marks
authenticated, and persists access_token and the serialized user. -/
def setAuth (st : ClientState) (token : String) (u : TokenUserInfo) : ClientState :=
  { auth := ⟨some u, some token, true⟩,
    storage := (st.storage.set "access_token" (.str token)).set "user" (.userJson u) }

/-- authStore.clearAuth(): nulls the in-memory fields, marks unauthenticated,
and removes access_token, refresh_token and user from localStorage. -/
def clearAuth (st : ClientState) : ClientState :=
  { auth := ⟨none, none, false⟩,
    storage := ((st.storage.remove "access_token").remove "refresh_token").remove "user" }

/-- authStore.initAuth(): reads access_token and user from localStorage; if
both are truthy it assigns the token, parses the user JSON and marks
authenticated, falling back to clearAuth when JSON.parse throws.  When either
key is absent or falsy the in-memory state is left untouched (the source has
no else branch). -/
def initAuth (st : ClientState) : ClientState :=
  let token := st.storage "access_token"
  let userStr := st.storage "user"
  if valTruthy token && valTruthy userStr then
    match parseUserOpt userStr with
    | some u => { st with auth := ⟨some u, token.map valString, true⟩ }
    | none => clearAuth st
  else st

/-! ## The API layer (frontend/src/lib/api.ts) -/

/-- HTTP request headers: a map from header names to optional values. -/
def Headers := String → Option String

/-- Set one header, overwriting a previous value (JS object assignment). -/
def Headers.set (h : Headers) (k v : String) : Headers :=
  fun k2 => if k2 = k then some v else h k2

/-- Empty header object. -/
def Headers.empty : Headers := fun _ => none

/-- JS object spread: entries of opt override entries of base. -/
def mergeHeaders (base opt : Headers) : Headers :=
  fun k => match opt k with
    | some v => some v
    | none => base k

/-- The literal base headers of apiRequest. -/
def baseHeaders : Headers :=
  Headers.empty.set "Content-Type" "application/json"

/-- JavaScript truthiness of a nullable string. -/
def strTruthy : Option String → Bool
  | none => false
  | some s => !(s == "")

/-- The headers apiRequest actually sends: it spreads the default
Content-Type with options.headers, then, whenever localStorage holds a truthy
access_token, overwrites the Authorization header with that stored token
(api.ts lines 9-18). -/
def apiRequestHeaders (stored : Option StorageVal) (optHeaders : Headers) : Headers :=
  let headers := mergeHeaders baseHeaders optHeaders
  if strTruthy (stored.map valString) then
    headers.set "Authorization" ("Bearer " ++ (stored.map valString).getD "")
  else headers

/-- JS String.prototype.trim, modelled over the character list: strip
whitespace from both ends. -/
def jsTrim (s : String) : String :=
  ⟨(((s.data.dropWhile Char.isWhitespace).reverse.dropWhile Char.isWhitespace).reverse)⟩

/-- The headers adminLoginStep2 passes as options.headers: Content-Type plus
Authorization set to the trimmed temporary ticket (api.ts lines 86-90). -/
def adminLoginStep2Headers (tempToken : String) : Headers :=
  (Headers.empty.set "Content-Type" "application/json").set
    "Authorization" ("Bearer " ++ jsTrim tempToken)

/-- The headers that reach the network for a step-2 submission: the
adminLoginStep2 headers routed through apiRequest against the given
localStorage contents. -/
def adminLoginStep2SentHeaders (σ : Storage) (tempToken : String) : Headers :=
  apiRequestHeaders (σ "access_token") (adminLoginStep2Headers tempToken)

/-- An HTTP response as seen by apiRequest: ok flag, status code, and the
detail field of the parsed error body when present (response.json() falling
back to a default detail is reflected by the caller passing some detail). -/
structure HttpResponse where
  ok : Bool
  status : Nat
  detail : Option String
deriving DecidableEq, Repr

/-- Outcome of apiRequest response processing: either the parsed body is
returned, or an Error with the given message is thrown. -/
inductive ApiResult
  | success
  | thrown (msg : String)
deriving DecidableEq, Repr

/-- The error message apiRequest throws on a non-ok response:
error.detail || `HTTP error! status: N` (falsy detail falls through). -/
def apiErrorMessage (resp : HttpResponse) : String :=
  match resp.detail with
  | some d => if d == "" then "HTTP error! status: " ++ toString resp.status else d
  | none => "HTTP error! status: " ++ toString resp.status

/-- Response processing of apiRequest (api.ts lines 26-31): on a non-ok
response it throws the detail message; the function body contains no writes
to the auth store or to localStorage and performs no navigation, so the
client state passes through unchanged and the navigation component is none. -/
def apiRequestHandle (st : ClientState) (resp : HttpResponse) :
    ApiResult × ClientState × Option String :=
  if resp.ok then (.success, st, none)
  else (.thrown (apiErrorMessage resp), st, none)

/-- logout() from api.ts: POSTs /api/auth/logout inside try/catch (a failure
is only logged), and in the finally block always removes access_token,
refresh_token and user from localStorage.  serverOk records whether the
server call succeeded; the storage effect is identical either way. -/
def logoutClient (serverOk : Bool) (st : ClientState) : ClientState :=
  let _ := serverOk
  { st with
    storage := ((st.storage.remove "access_token").remove "refresh_token").remove "user" }

/-! ## Route authorization (ProtectedRoute module) -/

/-- checkAuthorization(requireAuth, requireRole, excludeRole): first calls
authStore.initAuth(), then applies the three guard conditions to the store.
Returns the decision together with the updated client state. -/
def checkAuthorization (st : ClientState) (requireAuth : Bool)
    (requireRole excludeRole : Option UserRole) : Bool × ClientState :=
  let st2 := initAuth st
  let userRole : Option UserRole := st2.auth.user.map TokenUserInfo.role
  let authorized := true
  let authorized := if requireAuth && !st2.auth.isAuthenticated then false else authorized
  let authorized := if requireRole.isSome ∧ userRole ≠ requireRole then false else authorized
  let authorized := if excludeRole.isSome ∧ userRole = excludeRole then false else authorized
  (authorized, st2)

/-- What a ProtectedRoute renders: its children, or a redirect. -/
inductive RouteResult
  | children
  | redirect (target : String)
deriving DecidableEq, Repr

/-- ProtectedRoute: renders children when checkAuthorization allows, else a
Navigate to redirectTo (default "/login" at the call sites). -/
def ProtectedRoute (st : ClientState) (requireAuth : Bool)
    (requireRole excludeRole : Option UserRole) (redirectTo : String) :
    RouteResult × ClientState :=
  let res := checkAuthorization st requireAuth requireRole excludeRole
  if res.1 then (.children, res.2) else (.redirect redirectTo, res.2)

/-! ## The Login page (handleStep1 / handleStep2 response processing) -/

/-- The shape of a step-1 login response (LoginResponse in api.ts): every
field optional. -/
structure LoginResponse where
  access_token : Option String
  refresh_token : Option String
  token_type : Option String
  expires_in : Option Nat
  user : Option TokenUserInfo
  temp_token : Option String
  security_question : Option String
  message : Option String
  requires_security : Option Bool

/-- The shape of the step-2 response as consumed by handleStep2 (only
access_token and user are inspected, by truthiness). -/
structure TokenResponse where
  access_token : Option String
  refresh_token : Option String
  user : Option TokenUserInfo

/-- JavaScript truthiness of a nullable boolean. -/
def boolTruthy : Option Bool → Bool
  | some b => b
  | none => false

/-- The Login page state relevant to the handshake: the wizard step, the
stored temporary ticket, the displayed security question, the client state,
and the navigation target issued (none while no navigate call has run). -/
structure LoginPageState where
  step : Nat
  tempToken : String
  securityQuestion : String
  client : ClientState
  navigation : Option String

/-- handleStep1 response processing (Login page lines 77-96): when the
response indicates an admin (requires_security truthy together with a truthy
temp_token) it stores the ticket, displays the returned question (falling
back to a default when absent or empty) and moves to step 2 without touching
the auth store; otherwise, when access_token and user are present, it calls
setAuth and navigates by role. -/
def handleStep1Response (ps : LoginPageState) (resp : LoginResponse) : LoginPageState :=
  if boolTruthy resp.requires_security && strTruthy resp.temp_token then
    { ps with
      tempToken := (resp.temp_token).getD ""
      securityQuestion :=
        match resp.security_question with
        | some q => if q == "" then "Best movie of all time?" else q
        | none => "Best movie of all time?"
      step := 2 }
  else if strTruthy resp.access_token && resp.user.isSome then
    match resp.access_token, resp.user with
    | some tok, some u =>
      { ps with
        client := setAuth ps.client tok u
        navigation := some (if u.role = UserRole.admin then "/admin/dashboard" else "/") }
    | _, _ => ps
  else ps

/-- handleStep2 response processing (Login page lines 118-126): when the
response carries a truthy access_token and a user it calls setAuth and
navigates to the admin dashboard; otherwise it throws (caught and surfaced
as an error message), leaving the page state unchanged. -/
def handleStep2Response (ps : LoginPageState) (resp : TokenResponse) : LoginPageState :=
  if strTruthy resp.access_token && resp.user.isSome then
    match resp.access_token, resp.user with
    | some tok, some u =>
      { ps with
        client := setAuth ps.client tok u
        navigation := some "/admin/dashboard" }
    | _, _ => ps
  else ps

/-! ## Spec-modelled backend pieces

The FastAPI backend is not among the sources; only its frontend callers and
the spec describe it.  The two backend notions the claims need — the Token
Issuer token format and the Temporary Authentication Ticket consumption — are
modelled from the spec below. -/

/-- Modelled from the spec: the Token Issuer (spec section 4.2) is absent from
the sources.  Per the spec a session token is a tamper-evident encoding of
deterministic claims — identity, role, issued-at, expires-at — plus a
signature.  We model the encoded form as five dot-separated fields
"id.role.iat.exp.sig". -/
structure TokenClaims where
  identity : Nat
  role : UserRole
  issuedAt : Nat
  expiresAt : Nat
deriving DecidableEq, Repr

/-- Role names as they appear inside an encoded token. -/
def parseRoleName : String → Option UserRole
  | "user" => some .user
  | "admin" => some .admin
  | _ => none

/-- Split a character list on the dot character. -/
def splitDot : List Char → List (List Char)
  | [] => [[]]
  | c :: cs =>
    let rest := splitDot cs
    if c = '.' then [] :: rest
    else
      match rest with
      | [] => [[c]]
      | h :: t => (c :: h) :: t

/-- Numeric value of a decimal digit character. -/
def digitVal (c : Char) : Option Nat :=
  if c.isDigit then some (c.toNat - 48) else none

/-- Accumulate a decimal number over a character list. -/
def natOfCharsAux : Nat → List Char → Option Nat
  | acc, [] => some acc
  | acc, c :: cs =>
    match digitVal c with
    | some d => natOfCharsAux (acc * 10 + d) cs
    | none => none

/-- Parse a nonempty all-digit string as a natural number. -/
def natOfString (s : String) : Option Nat :=
  match s.data with
  | [] => none
  | cs => natOfCharsAux 0 cs

/-- Modelled from the spec: structural decoding of an encoded token.  A token
is structurally valid exactly when it decodes: five dot-separated fields with
numeric identity and timestamps and a known role name. -/
def decodeTokenClaims (s : String) : Option TokenClaims :=
  match (splitDot s.data).map List.asString with
  | [idS, roleS, iatS, expS, _] =>
    match natOfString idS, parseRoleName roleS, natOfString iatS, natOfString expS with
    | some i, some r, some iat, some e => some ⟨i, r, iat, e⟩
    | _, _, _, _ => none
  | _ => none

/-- Modelled from the spec: validate(token) fails closed on malformed
structure or expiry (spec section 4.2) — a token is accepted at time now
exactly when it decodes and now is strictly before its expiry. -/
def validateToken (now : Nat) (s : String) : Option TokenClaims :=
  match decodeTokenClaims s with
  | some c => if now < c.expiresAt then some c else none
  | none => none

/-- Modelled from the spec: the Temporary Authentication Ticket validity
record (spec sections 3, 4.1, 5) — bound identity, issuance and expiry times,
and a consumed flag that step 2 marks atomically. -/
structure Ticket where
  identity : Nat
  issuedAt : Nat
  expiresAt : Nat
  consumed : Bool
deriving DecidableEq, Repr

/-- Outcome of a step-2 (security-verify) submission. -/
inductive Step2Result
  | success (identity : Nat)
  | invalidSecurityAnswer
  | ticketExpiredOrInvalid
deriving DecidableEq, Repr

/-- Modelled from the spec: one atomic step-2 submission (spec section 4.1).
A consumed or expired ticket fails with TicketExpiredOrInvalid; a wrong
answer fails with InvalidSecurityAnswer leaving the ticket live; a correct
answer consumes the ticket atomically and yields a full session for the
bound identity.  Atomic consumption means concurrent submissions serialize:
an interleaving is one of the two orders of applying this step. -/
def verifySecurity (now : Nat) (t : Ticket) (answer correctAnswer : String) :
    Step2Result × Ticket :=
  if t.consumed || decide (t.expiresAt ≤ now) then (.ticketExpiredOrInvalid, t)
  else if answer ≠ correctAnswer then (.invalidSecurityAnswer, t)
  else (.success t.identity, { t with consumed := true })

/-! ## Concrete sample values used by witnesses and counterexamples -/

/-- A sample regular user summary. -/
def sampleUser : TokenUserInfo :=
  ⟨1, "alice", "alice@sjsu.edu", "Alice Spartan", .user, true⟩

/-- A sample admin user summary. -/
def adminUser : TokenUserInfo :=
  ⟨2, "admin1", "admin1@sjsu.edu", "Admin One", .admin, true⟩

/-- A sample encoded token that decodes and expires at time 1000. -/
def sampleToken : String := "2.admin.0.1000.sig"

/-- A client state with a stale in-memory admin session and cleared
persistent storage (as after a logout in another browser tab). -/
def staleMemoryState : ClientState :=
  ⟨⟨some adminUser, some "tok", true⟩, Storage.empty⟩

/-- Storage holding a garbage (structurally invalid) token together with a
well-formed serialized user. -/
def garbageTokenStorage : Storage :=
  (Storage.empty.set "access_token" (.str "garbage-token")).set "user" (.userJson sampleUser)

/-- An authenticated client state whose storage holds a token and user. -/
def authedState : ClientState :=
  ⟨⟨some sampleUser, some "tok", true⟩,
   (Storage.empty.set "access_token" (.str "tok")).set "user" (.userJson sampleUser)⟩

/-- A 401 response carrying a detail message. -/
def resp401 : HttpResponse := ⟨false, 401, some "Unauthorized"⟩

/-- An authenticated admin client state with matching persisted artifacts. -/
def adminAuthedState : ClientState :=
  ⟨⟨some adminUser, some "tok", true⟩,
   (Storage.empty.set "access_token" (.str "tok")).set "user" (.userJson adminUser)⟩

/-! ## Claim theorems -/

/-- Claim C1: a step-1 login response indicating an admin account
(requires_security true together with a temp_token) moves the client to the
second-factor step — the temporary ticket is stored, the returned security
question is displayed, and no session is established (setAuth is not called,
the client state is unchanged) — and a full session is established by step 2
exactly when the step-2 response carries an access_token and user. -/
theorem step1_admin_awaits_second_factor :
    (∀ (ps : LoginPageState) (resp : LoginResponse) (t q : String),
        resp.requires_security = some true →
        resp.temp_token = some t → t ≠ "" →
        resp.security_question = some q → q ≠ "" →
        (handleStep1Response ps resp).step = 2 ∧
        (handleStep1Response ps resp).tempToken = t ∧
        (handleStep1Response ps resp).securityQuestion = q ∧
        (handleStep1Response ps resp).client = ps.client ∧
        (handleStep1Response ps resp).navigation = ps.navigation) ∧
    (∀ (ps : LoginPageState) (resp : TokenResponse),
        (strTruthy resp.access_token && resp.user.isSome) = false →
        handleStep2Response ps resp = ps) ∧
    (∀ (ps : LoginPageState) (resp : TokenResponse) (tok : String) (u : TokenUserInfo),
        resp.access_token = some tok → tok ≠ "" → resp.user = some u →
        (handleStep2Response ps resp).client.auth = ⟨some u, some tok, true⟩) := by
  refine ⟨?_, ?_, ?_⟩
  · intro ps resp t q hreq htt ht hq hqne
    simp [handleStep1Response, boolTruthy, strTruthy, hreq, htt, ht, hq, hqne]
  · intro ps resp h
    simp [handleStep2Response, h]
  · intro ps resp tok u ha ht hu
    simp [handleStep2Response, strTruthy, ha, hu, ht, setAuth]

/-- Witness for C1 at concrete inputs. -/
theorem step1_admin_awaits_second_factor_witness :
    (handleStep1Response ⟨1, "", "", ⟨AuthStore.fresh, Storage.empty⟩, none⟩
        ⟨none, none, none, none, none, some "tkt", some "Best movie of all time?",
         none, some true⟩).step = 2 ∧
    handleStep2Response ⟨2, "tkt", "q", ⟨AuthStore.fresh, Storage.empty⟩, none⟩
        ⟨none, none, none⟩ =
      ⟨2, "tkt", "q", ⟨AuthStore.fresh, Storage.empty⟩, none⟩ ∧
    (handleStep2Response ⟨2, "tkt", "q", ⟨AuthStore.fresh, Storage.empty⟩, none⟩
        ⟨some "tok", none, some adminUser⟩).client.auth =
      ⟨some adminUser, some "tok", true⟩ :=
  ⟨(step1_admin_awaits_second_factor.1 _ _ "tkt" "Best movie of all time?"
      rfl rfl (by decide) rfl (by decide)).1,
   step1_admin_awaits_second_factor.2.1 _ _ (by decide),
   step1_admin_awaits_second_factor.2.2 _ _ "tok" adminUser rfl (by decide) rfl⟩

/-- Claim C2 (refuted at this input — the code contradicts its own comment):
with a previously stored access token in localStorage, the step-2 request
carries "Bearer tok" (the stored token) instead of the trimmed temporary
ticket, because apiRequest overwrites the Authorization header after
spreading options.headers; only with empty storage does the ticket reach the
wire. -/
theorem step2_bearer_overwritten_by_stored_token :
    adminLoginStep2SentHeaders authedState.storage " t1 " "Authorization" =
      some "Bearer tok" ∧
    adminLoginStep2SentHeaders authedState.storage " t1 " "Authorization" ≠
      some "Bearer t1" ∧
    adminLoginStep2SentHeaders Storage.empty " t1 " "Authorization" =
      some "Bearer t1" := by
  decide

/-- Claim C3, counterexample: initAuth marks the session authenticated for a
token that is not structurally valid — storage holding the garbage token
string together with a well-formed serialized user yields
isAuthenticated = true although the token does not decode at all. -/
theorem initAuth_trusts_garbage_token :
    (initAuth ⟨AuthStore.fresh, garbageTokenStorage⟩).auth.isAuthenticated = true ∧
    garbageTokenStorage "access_token" = some (.str "garbage-token") ∧
    decodeTokenClaims "garbage-token" = none := by
  decide

/-- Claim C3 as amended: after initAuth in a fresh process the authenticated
flag is true exactly when storage holds a truthy access_token and a truthy,
JSON-parseable user entry — presence and parseability only, with no
structural or expiry validation of the token — and when either entry is
absent or falsy, initAuth leaves the whole client state untouched. -/
theorem initAuth_checks_presence_and_parse :
    (∀ σ : Storage,
        (initAuth ⟨AuthStore.fresh, σ⟩).auth.isAuthenticated =
          (valTruthy (σ "access_token") && valTruthy (σ "user") &&
            (parseUserOpt (σ "user")).isSome)) ∧
    (∀ st : ClientState,
        (valTruthy (st.storage "access_token") && valTruthy (st.storage "user")) = false →
        initAuth st = st) := by
  constructor
  · intro σ
    simp only [initAuth]
    cases hg : valTruthy (σ "access_token") && valTruthy (σ "user")
    · simp [hg, AuthStore.fresh]
    · cases hp : parseUserOpt (σ "user") <;> simp [hg, hp, clearAuth]
  · intro st h
    simp [initAuth, h]

/-- Witness for C3 as amended at concrete inputs. -/
theorem initAuth_checks_presence_and_parse_witness :
    (initAuth ⟨AuthStore.fresh, garbageTokenStorage⟩).auth.isAuthenticated =
      (valTruthy (garbageTokenStorage "access_token") &&
        valTruthy (garbageTokenStorage "user") &&
        (parseUserOpt (garbageTokenStorage "user")).isSome) ∧
    initAuth ⟨AuthStore.fresh, Storage.empty⟩ = ⟨AuthStore.fresh, Storage.empty⟩ :=
  ⟨initAuth_checks_presence_and_parse.1 garbageTokenStorage,
   initAuth_checks_presence_and_parse.2 ⟨AuthStore.fresh, Storage.empty⟩ (by decide)⟩

/-- Claim C4 (refuted at this input — the code contradicts its stated
re-check intent): with persistent storage cleared (logout in another tab)
but a stale in-memory admin session, the navigation-time authorization check
still authorizes — initAuth has no branch clearing the in-memory state when
the storage keys are absent, so checkAuthorization observes the stale
authenticated flag and the admin route renders its children. -/
theorem stale_memory_authorizes_after_storage_clear :
    staleMemoryState.storage "access_token" = none ∧
    staleMemoryState.storage "user" = none ∧
    staleMemoryState.auth.isAuthenticated = true ∧
    (checkAuthorization staleMemoryState true none none).1 = true ∧
    (ProtectedRoute staleMemoryState true (some .admin) none "/login").1 =
      .children := by
  decide

/-- Claim C5, counterexample: an authenticated call answered with 401 does
not clear the session nor redirect — apiRequest merely throws the detail
message, the client state passes through still authenticated with the token
still persisted, and no navigation to the login entry point occurs. -/
theorem unauthorized_response_keeps_session :
    (apiRequestHandle authedState resp401).2.2 ≠ some "/login" ∧
    (apiRequestHandle authedState resp401).2.2 = none ∧
    (apiRequestHandle authedState resp401).2.1.auth.isAuthenticated = true ∧
    (apiRequestHandle authedState resp401).2.1.storage "access_token" =
      some (.str "tok") ∧
    (apiRequestHandle authedState resp401).1 = .thrown "Unauthorized" ∧
    resp401.status = 401 := by
  decide

/-- Claim C5 as amended: on any non-ok response (401 and 403 included)
apiRequest throws an Error carrying the detail message (or an HTTP-status
fallback); the client session state and persisted storage are left entirely
unchanged and no redirect is performed. -/
theorem apiRequest_throws_and_preserves_session :
    ∀ (st : ClientState) (resp : HttpResponse),
      resp.ok = false →
      apiRequestHandle st resp = (.thrown (apiErrorMessage resp), st, none) := by
  intro st resp h
  simp [apiRequestHandle, h]

/-- Witness for C5 as amended at a concrete 401 response. -/
theorem apiRequest_throws_and_preserves_session_witness :
    apiRequestHandle authedState resp401 =
      (.thrown (apiErrorMessage resp401), authedState, none) :=
  apiRequest_throws_and_preserves_session authedState resp401 rfl

/-- Claim C6: the route-gating decision is a pure predicate of the session
state checkAuthorization derives (the post-initAuth store): it allows exactly
when authentication, required-role and excluded-role conditions all hold; and
a session that is unauthenticated or whose user is not an admin is denied on
an admin route and redirected to "/login". -/
theorem authorize_iff_role_checks :
    (∀ (st : ClientState) (requireAuth : Bool) (requireRole excludeRole : Option UserRole),
        ((checkAuthorization st requireAuth requireRole excludeRole).1 = true ↔
          ((requireAuth = true → (initAuth st).auth.isAuthenticated = true) ∧
           (∀ r, requireRole = some r →
              (initAuth st).auth.user.map TokenUserInfo.role = some r) ∧
           (∀ r, excludeRole = some r →
              (initAuth st).auth.user.map TokenUserInfo.role ≠ some r)))) ∧
    (∀ st : ClientState,
        ((initAuth st).auth.isAuthenticated = false ∨
         (initAuth st).auth.user.map TokenUserInfo.role ≠ some UserRole.admin) →
        (ProtectedRoute st true (some UserRole.admin) none "/login").1 =
          RouteResult.redirect "/login") := by
  constructor
  · intro st ra rr er
    simp only [checkAuthorization]
    rcases rr with _ | r1
    · rcases er with _ | r2
      · cases ra <;> cases hb : (initAuth st).auth.isAuthenticated <;> simp_all
      · cases ra <;> cases hb : (initAuth st).auth.isAuthenticated <;>
          by_cases h2 : (initAuth st).auth.user.map TokenUserInfo.role = some r2 <;>
            simp_all
    · rcases er with _ | r2
      · cases ra <;> cases hb : (initAuth st).auth.isAuthenticated <;>
          by_cases h1 : (initAuth st).auth.user.map TokenUserInfo.role = some r1 <;>
            simp_all
      · cases ra <;> cases hb : (initAuth st).auth.isAuthenticated <;>
          by_cases h1 : (initAuth st).auth.user.map TokenUserInfo.role = some r1 <;>
            by_cases h2 : (initAuth st).auth.user.map TokenUserInfo.role = some r2 <;>
              simp_all
  · intro st h
    simp only [ProtectedRoute, checkAuthorization]
    rcases h with h | h <;>
      cases hb : (initAuth st).auth.isAuthenticated <;>
        by_cases h1 : (initAuth st).auth.user.map TokenUserInfo.role =
            some UserRole.admin <;>
          simp_all

/-- Witness for C6: an authenticated admin session is allowed on the admin
route, and a fresh unauthenticated session is redirected to "/login". -/
theorem authorize_iff_role_checks_witness :
    (checkAuthorization adminAuthedState true (some .admin) none).1 = true ∧
    (ProtectedRoute ⟨AuthStore.fresh, Storage.empty⟩ true (some .admin) none
        "/login").1 = .redirect "/login" := by
  constructor
  · exact (authorize_iff_role_checks.1 adminAuthedState true (some .admin) none).mpr
      ⟨fun _ => by decide, fun r hr => by cases hr; decide, fun r hr => by simp at hr⟩
  · exact authorize_iff_role_checks.2 ⟨AuthStore.fresh, Storage.empty⟩
      (Or.inl (by decide))

/-- Claim C7: logout removes access_token, refresh_token and the serialized
user from persistent storage together, also when the server-side logout
request fails; and clearAuth followed by initAuth yields an unauthenticated
state with no leaked prior user summary. -/
theorem logout_clears_all_artifacts :
    (∀ (serverOk : Bool) (st : ClientState),
        (logoutClient serverOk st).storage "access_token" = none ∧
        (logoutClient serverOk st).storage "refresh_token" = none ∧
        (logoutClient serverOk st).storage "user" = none) ∧
    (∀ st : ClientState,
        (initAuth (clearAuth st)).auth.isAuthenticated = false ∧
        (initAuth (clearAuth st)).auth.user = none ∧
        (initAuth (clearAuth st)).auth.token = none) :=
  ⟨fun _ _ => ⟨rfl, rfl, rfl⟩, fun _ => ⟨rfl, rfl, rfl⟩⟩

/-- Claim C8: setAuth(token, user) followed by initAuth in a fresh process
(in-memory state reset, storage retained) restores the identical decoded user
summary, the same token, and authenticated = true, for every token that is
structurally valid and unexpired at some time. -/
theorem set_then_restore_roundtrip :
    ∀ (st : ClientState) (token : String) (u : TokenUserInfo) (now : Nat)
      (c : TokenClaims),
      validateToken now token = some c →
      (initAuth ⟨AuthStore.fresh, (setAuth st token u).storage⟩).auth =
        ⟨some u, some token, true⟩ := by
  intro st token u now c h
  have htok : token ≠ "" := by
    rintro rfl
    rw [show validateToken now "" = none from rfl] at h
    exact Option.noConfusion h
  have e1 : ("access_token" : String) ≠ "user" := by decide
  simp [initAuth, setAuth, Storage.set, valTruthy, parseUserOpt, parseUser,
    valString, e1, htok]

/-- Witness for C8 at a concrete valid token. -/
theorem set_then_restore_roundtrip_witness :
    validateToken 10 sampleToken = some ⟨2, .admin, 0, 1000⟩ ∧
    (initAuth ⟨AuthStore.fresh, (setAuth authedState sampleToken adminUser).storage⟩).auth =
      ⟨some adminUser, some sampleToken, true⟩ :=
  ⟨by decide,
   set_then_restore_roundtrip authedState sampleToken adminUser 10 ⟨2, .admin, 0, 1000⟩
     (by decide)⟩

/-- Claim C9: for a live (unconsumed, unexpired) Temporary Authentication
Ticket and the correct answer, two submissions of step 2 with the same
ticket cannot both succeed — the first consumption wins and yields a full
session for the bound identity, marks the ticket consumed, and the second
submission observes TicketExpiredOrInvalid.  Both interleavings of the two
concurrent submissions are the same sequence, so exactly one wins in either
order. -/
theorem concurrent_step2_single_winner :
    ∀ (now : Nat) (t : Ticket) (answer : String),
      t.consumed = false → now < t.expiresAt →
      (verifySecurity now t answer answer).1 = .success t.identity ∧
      ((verifySecurity now t answer answer).2).consumed = true ∧
      (verifySecurity now ((verifySecurity now t answer answer).2) answer answer).1 =
        .ticketExpiredOrInvalid := by
  intro now t ans h1 h2
  have hn : ¬ (t.expiresAt ≤ now) := Nat.not_le.mpr h2
  simp [verifySecurity, h1, hn]

/-- Witness for C9 at a concrete ticket. -/
theorem concurrent_step2_single_winner_witness :
    (verifySecurity 5 ⟨2, 0, 100, false⟩ "ans" "ans").1 = .success 2 ∧
    ((verifySecurity 5 ⟨2, 0, 100, false⟩ "ans" "ans").2).consumed = true ∧
    (verifySecurity 5 ((verifySecurity 5 ⟨2, 0, 100, false⟩ "ans" "ans").2)
        "ans" "ans").1 = .ticketExpiredOrInvalid :=
  concurrent_step2_single_winner 5 ⟨2, 0, 100, false⟩ "ans" rfl (by decide)

/-- Claim C10: setAuth writes exactly the access_token and user entries of
persistent storage — every other key, refresh_token in particular, is left
unchanged; clearAuth and logout do remove a refresh_token entry; and since
the session store never writes one, a storage without a refresh token still
has none after setAuth or initAuth, so no refresh token survives a process
restart. -/
theorem setAuth_writes_only_token_and_user :
    (∀ (st : ClientState) (token : String) (u : TokenUserInfo) (k : String),
        k ≠ "access_token" → k ≠ "user" →
        (setAuth st token u).storage k = st.storage k) ∧
    (∀ (st : ClientState) (token : String) (u : TokenUserInfo),
        (setAuth st token u).storage "access_token" = some (.str token) ∧
        (setAuth st token u).storage "user" = some (.userJson u) ∧
        (setAuth st token u).storage "refresh_token" = st.storage "refresh_token") ∧
    (∀ st : ClientState, (clearAuth st).storage "refresh_token" = none) ∧
    (∀ (serverOk : Bool) (st : ClientState),
        (logoutClient serverOk st).storage "refresh_token" = none) ∧
    (∀ (st : ClientState) (token : String) (u : TokenUserInfo),
        st.storage "refresh_token" = none →
        (setAuth st token u).storage "refresh_token" = none ∧
        (initAuth st).storage "refresh_token" = none) := by
  refine ⟨?_, ?_, ?_, ?_, ?_⟩
  · intro st token u k h1 h2
    simp [setAuth, Storage.set, h1, h2]
  · intro st token u
    exact ⟨rfl, rfl, rfl⟩
  · intro st
    rfl
  · intro serverOk st
    rfl
  · intro st token u h
    refine ⟨h, ?_⟩
    simp only [initAuth]
    cases hg : valTruthy (st.storage "access_token") && valTruthy (st.storage "user")
    · simp [h]
    · cases hp : parseUserOpt (st.storage "user") <;>
        simp [hp, clearAuth, Storage.remove, h]

/-- Witness for C10 at concrete inputs. -/
theorem setAuth_writes_only_token_and_user_witness :
    (setAuth authedState "t2" sampleUser).storage "refresh_token" =
      authedState.storage "refresh_token" ∧
    (setAuth authedState "t2" sampleUser).storage "refresh_token" = none ∧
    (initAuth authedState).storage "refresh_token" = none :=
  ⟨setAuth_writes_only_token_and_user.1 authedState "t2" sampleUser "refresh_token"
      (by decide) (by decide),
   (setAuth_writes_only_token_and_user.2.2.2.2 authedState "t2" sampleUser rfl).1,
   (setAuth_writes_only_token_and_user.2.2.2.2 authedState "t2" sampleUser rfl).2⟩

end Marketplace
